import Mathlib

/-!
Verification of the clawdbot internship automation tool.

This file gives a shallow embedding, in Lean, of the pure decision logic of
the repository `clawdbot-productivity-automation`:

* `settings.py`   — configuration records, defaults, `load_config`, and the
  CLI override logic of `cli.py`;
* `llm.py`        — `LLMClient.answer_application_question` (with the remote
  chat response modelled as an input string, empty on failure/disabled);
* `question_answerer.py` — `QuestionAnswerer.answer` and its helpers;
* `resume_builder.py` — `_safe_slug`;
* `handshake_bot.py`  — `_matches_filters`, the `_apply_to_job` loop and the
  `run` loop, with all browser observations (visible buttons, raised
  exceptions, page interactions) modelled as explicit input traces and the
  clicks performed recorded as an explicit action list.

Python string primitives are modelled over `String.data : List Char`:
`s.strip()` as dropping `Char.isWhitespace` characters at both ends,
`s.lower()` as character-wise `Char.toLower` (faithful for ASCII, which is
all the code's patterns use), `needle in hay` as a boolean substring scan,
and `s[:n]` (with a non-negative bound, the only case the code exercises)
as `List.take`.
-/

/-- Boolean test that `needle` is a prefix of `hay` (over `List Char`). -/
def listPrefixB : List Char → List Char → Bool
  | [], _ => true
  | _ :: _, [] => false
  | a :: as, b :: bs => a == b && listPrefixB as bs

/-- Boolean test that `needle` occurs contiguously inside `hay`; the model of
Python's `needle in hay` on strings. -/
def listInfixB (needle : List Char) : List Char → Bool
  | [] => listPrefixB needle []
  | b :: rest => listPrefixB needle (b :: rest) || listInfixB needle rest

/-- Python `needle in hay` for strings. -/
def substrB (needle hay : String) : Bool :=
  listInfixB needle.data hay.data

/-- Drop characters satisfying `p` from both ends of a character list. -/
def dropEndsWhile (p : Char → Bool) (l : List Char) : List Char :=
  ((l.dropWhile p).reverse.dropWhile p).reverse

/-- Python `s.strip()`: whitespace removed from both ends. -/
def pyStrip (s : String) : String :=
  ⟨dropEndsWhile Char.isWhitespace s.data⟩

/-- Python `s.lower()`, modelled character-wise with `Char.toLower`
(faithful on ASCII, which is all that the code's patterns and the claims
exercise). -/
def lowerStr (s : String) : String :=
  ⟨s.data.map Char.toLower⟩

/-- Python `s[:n]` for a non-negative bound `n`. -/
def pySlice (s : String) (n : Nat) : String :=
  ⟨s.data.take n⟩

/-! ## models.py -/

/-- `models.JobPosting`. -/
structure JobPosting where
  job_id : String
  title : String
  company : String := ""
  location : String := ""
  description : String := ""
  url : String := ""
deriving DecidableEq, Repr

/-- `models.ApplicationResult`. -/
structure ApplicationResult where
  job_id : String
  title : String
  company : String
  url : String
  status : String
  reason : String := ""
deriving DecidableEq, Repr

/-! ## question_answerer.py -/

/-- `question_answerer.AliasRule`. -/
structure AliasRule where
  key : String
  patterns : List String
deriving DecidableEq, Repr

/-- `QuestionAnswerer._alias_key_for_prompt`: first rule in list order with a
non-empty pattern occurring in the prompt wins; `""` encodes "no key"
(Python returns the falsy empty string). -/
def alias_key_for_prompt : List AliasRule → String → String
  | [], _ => ""
  | r :: rest, prompt =>
    if r.patterns.any (fun p => !(p == "") && substrB p prompt) then r.key
    else alias_key_for_prompt rest prompt

/-- The per-rule match test used by `_alias_key_for_prompt`'s inner loop:
some non-empty pattern of the rule is a substring of the prompt. -/
def ruleMatches (prompt : String) (r : AliasRule) : Bool :=
  r.patterns.any (fun p => !(p == "") && substrB p prompt)

/-- `QuestionAnswerer._heuristic_default`. -/
def heuristic_default (prompt : String) : String :=
  if substrB "authorized to work" prompt || substrB "work authorization" prompt then "Yes"
  else if substrB "sponsorship" prompt || substrB "visa" prompt then "No"
  else if substrB "relocate" prompt then "Yes"
  else ""

/-- Lookup in the Python dict comprehension
`lowered = \x7bchoice.lower(): choice for choice in choices\x7d`: for duplicate
lowercased keys the later entry wins, hence `getLast?` of the matching
entries. -/
def lowerLookup (choices : List String) (key : String) : Option String :=
  (choices.filter (fun c => lowerStr c == key)).getLast?

/-- `QuestionAnswerer._match_choice`: case-insensitive exact match against the
choice list first, then first choice related to the answer by substring
containment in either direction; `""` encodes "no match". -/
def match_choice (answer : String) (choices : List String) : String :=
  if answer == "" then ""
  else
    match lowerLookup choices (lowerStr answer) with
    | some c => c
    | none =>
      match choices.find? (fun c =>
          substrB (lowerStr c) (lowerStr answer) || substrB (lowerStr answer) (lowerStr c)) with
      | some c => c
      | none => ""

/-- Lines 53–56 of `QuestionAnswerer.answer`: alias key resolution, then the
keyed default, then the heuristic fallback. The loaded `defaults` dict is
modelled as a partial map. -/
def resolve_default (defaults : String → Option String) (rules : List AliasRule)
    (prompt_norm : String) : String :=
  let key := alias_key_for_prompt rules prompt_norm
  let d0 := if key == "" then "" else (defaults key).getD ""
  if d0 == "" then heuristic_default prompt_norm else d0

/-- Line 51 of `QuestionAnswerer.answer`: trim every choice and drop the ones
that are blank. -/
def normalize_choices (choices : List String) : List String :=
  (choices.map pyStrip).filter (fun c => !(c == ""))

/-- `QuestionAnswerer.answer`. The LLM client is modelled by two inputs:
`llm_enabled` (`self.llm.enabled`) and `llm_response` (the string returned by
`self.llm.answer_application_question` for this call). The result pairs the
returned answer with a flag recording whether the LLM client was invoked. -/
def answer (defaults : String → Option String) (rules : List AliasRule)
    (max_answer_chars : Nat) (llm_enabled : Bool) (llm_response : String)
    (prompt input_type : String) (choices0 : List String) : String × Bool :=
  let prompt_norm := lowerStr (pyStrip prompt)
  let choices := normalize_choices choices0
  let default_answer := resolve_default defaults rules prompt_norm
  let afterChoices : String × Bool :=
    let res :=
      if llm_enabled && !(llm_response == "") then
        if !choices.isEmpty then
          (let m := match_choice llm_response choices
           if m == "" then choices.headD "" else m)
        else pySlice llm_response max_answer_chars
      else if !(default_answer == "") then
        if !choices.isEmpty then
          (let m := match_choice default_answer choices
           if m == "" then choices.headD "" else m)
        else pySlice default_answer max_answer_chars
      else if !choices.isEmpty then choices.headD ""
      else if input_type == "email" then (defaults "email").getD ""
      else if input_type == "tel" then (defaults "phone").getD ""
      else if substrB "linkedin" prompt_norm then (defaults "linkedin").getD ""
      else if substrB "github" prompt_norm then (defaults "github").getD ""
      else if substrB "portfolio" prompt_norm || substrB "website" prompt_norm then
        (defaults "portfolio").getD ""
      else ""
    (res, llm_enabled)
  if !choices.isEmpty && !(match_choice default_answer choices == "") then
    (match_choice default_answer choices, false)
  else afterChoices

/-! ## settings.py -/

def DEFAULT_HANDSHAKE_LOGIN_URL : String := "https://app.joinhandshake.com/login"

def DEFAULT_HANDSHAKE_JOBS_URL : String := "https://app.joinhandshake.com/stu/postings"

def DEFAULT_BROWSER_HEADLESS : Bool := false

def DEFAULT_BROWSER_SLOW_MO_MS : Int := 120

def DEFAULT_BROWSER_TIMEOUT_MS : Int := 25000

def DEFAULT_FILTER_SEARCH_QUERY : String := "software engineer intern"

def DEFAULT_INCLUDE_KEYWORDS : List String := ["software", "engineer", "intern"]

def DEFAULT_EXCLUDE_KEYWORDS : List String := []

def DEFAULT_PREFERRED_LOCATIONS : List String := []

def DEFAULT_FILTER_REMOTE_ONLY : Bool := false

def DEFAULT_FILTER_MAX_DISCOVERED : Int := 150

def DEFAULT_APP_DRY_RUN : Bool := true

def DEFAULT_APP_AUTO_SUBMIT : Bool := false

def DEFAULT_APP_MAX_APPLICATIONS : Int := 25

def DEFAULT_APP_PAUSE_BETWEEN_SEC : Int := 2

def DEFAULT_APP_SAVE_HTML_ON_FAILURE : Bool := true

def DEFAULT_RESUME_MODE : String := "markdown_template"

def DEFAULT_RESUME_BASE_PATH : String := "artifacts/base_resume.txt"

def DEFAULT_RESUME_TEMPLATE_PATH : String := "config/resume_template.md"

def DEFAULT_RESUME_OUTPUT_DIR : String := "artifacts/resumes"

def DEFAULT_LLM_ENABLED : Bool := true

def DEFAULT_LLM_PROVIDER : String := "openai"

def DEFAULT_LLM_API_KEY_ENV : String := "OPENAI_API_KEY"

def DEFAULT_LLM_MODEL : String := "gpt-4o-mini"

/-- `DEFAULT_LLM_TEMPERATURE = 0.2`; YAML floats are modelled as rationals. -/
def DEFAULT_LLM_TEMPERATURE : ℚ := 1 / 5

def DEFAULT_QA_DEFAULTS_PATH : String := "config/qa_defaults.yaml"

def DEFAULT_QA_MAX_ANSWER_CHARS : Int := 1000

/-- `settings.HandshakeConfig`. -/
structure HandshakeConfig where
  email : String
  password : String
  login_url : String := DEFAULT_HANDSHAKE_LOGIN_URL
  jobs_url : String := DEFAULT_HANDSHAKE_JOBS_URL
deriving DecidableEq, Repr

/-- `settings.BrowserConfig`. -/
structure BrowserConfig where
  headless : Bool := DEFAULT_BROWSER_HEADLESS
  slow_mo_ms : Int := DEFAULT_BROWSER_SLOW_MO_MS
  timeout_ms : Int := DEFAULT_BROWSER_TIMEOUT_MS
deriving DecidableEq, Repr

/-- `settings.FilterConfig`. -/
structure FilterConfig where
  search_query : String := DEFAULT_FILTER_SEARCH_QUERY
  include_keywords : List String := DEFAULT_INCLUDE_KEYWORDS
  exclude_keywords : List String := DEFAULT_EXCLUDE_KEYWORDS
  preferred_locations : List String := DEFAULT_PREFERRED_LOCATIONS
  remote_only : Bool := DEFAULT_FILTER_REMOTE_ONLY
  max_discovered_jobs : Int := DEFAULT_FILTER_MAX_DISCOVERED
deriving DecidableEq, Repr

/-- `settings.ApplicationConfig`. -/
structure ApplicationConfig where
  dry_run : Bool := DEFAULT_APP_DRY_RUN
  auto_submit : Bool := DEFAULT_APP_AUTO_SUBMIT
  max_applications : Int := DEFAULT_APP_MAX_APPLICATIONS
  pause_between_apps_sec : Int := DEFAULT_APP_PAUSE_BETWEEN_SEC
  save_html_on_failure : Bool := DEFAULT_APP_SAVE_HTML_ON_FAILURE
deriving DecidableEq, Repr

/-- `settings.ResumeConfig`. -/
structure ResumeConfig where
  mode : String := DEFAULT_RESUME_MODE
  base_resume_path : String := DEFAULT_RESUME_BASE_PATH
  template_path : String := DEFAULT_RESUME_TEMPLATE_PATH
  output_dir : String := DEFAULT_RESUME_OUTPUT_DIR
deriving DecidableEq, Repr

/-- `settings.LLMConfig`. -/
structure LLMConfig where
  enabled : Bool := DEFAULT_LLM_ENABLED
  provider : String := DEFAULT_LLM_PROVIDER
  api_key_env : String := DEFAULT_LLM_API_KEY_ENV
  model : String := DEFAULT_LLM_MODEL
  temperature : ℚ := DEFAULT_LLM_TEMPERATURE
deriving DecidableEq, Repr

/-- `settings.QAConfig`. -/
structure QAConfig where
  defaults_path : String := DEFAULT_QA_DEFAULTS_PATH
  max_answer_chars : Int := DEFAULT_QA_MAX_ANSWER_CHARS
deriving DecidableEq, Repr

/-- `settings.AutomationConfig`. -/
structure AutomationConfig where
  handshake : HandshakeConfig
  browser : BrowserConfig := {}
  filters : FilterConfig := {}
  application : ApplicationConfig := {}
  resume : ResumeConfig := {}
  llm : LLMConfig := {}
  qa : QAConfig := {}
deriving DecidableEq, Repr

/-- The parsed `handshake` section of the YAML file; `none` fields are absent
keys (an explicitly null value behaves the same under Python's `dict.get`). -/
structure RawHandshake where
  email : Option String := none
  password : Option String := none
  login_url : Option String := none
  jobs_url : Option String := none
deriving DecidableEq, Repr

/-- The parsed `browser` section. Values are modelled at the target types
(the Python code coerces each present scalar with `bool`/`int`/`str`). -/
structure RawBrowser where
  headless : Option Bool := none
  slow_mo_ms : Option Int := none
  timeout_ms : Option Int := none
deriving DecidableEq, Repr

/-- The parsed `filters` section. -/
structure RawFilters where
  search_query : Option String := none
  include_keywords : Option (List String) := none
  exclude_keywords : Option (List String) := none
  preferred_locations : Option (List String) := none
  remote_only : Option Bool := none
  max_discovered_jobs : Option Int := none
deriving DecidableEq, Repr

/-- The parsed `application` section. -/
structure RawApplication where
  dry_run : Option Bool := none
  auto_submit : Option Bool := none
  max_applications : Option Int := none
  pause_between_apps_sec : Option Int := none
  save_html_on_failure : Option Bool := none
deriving DecidableEq, Repr

/-- The parsed `resume` section. -/
structure RawResume where
  mode : Option String := none
  base_resume_path : Option String := none
  template_path : Option String := none
  output_dir : Option String := none
deriving DecidableEq, Repr

/-- The parsed `llm` section. -/
structure RawLLM where
  enabled : Option Bool := none
  provider : Option String := none
  api_key_env : Option String := none
  model : Option String := none
  temperature : Option ℚ := none
deriving DecidableEq, Repr

/-- The parsed `qa` section. -/
structure RawQA where
  defaults_path : Option String := none
  max_answer_chars : Option Int := none
deriving DecidableEq, Repr

/-- The whole parsed YAML document; a `none` section is an absent (or null)
key, for which the loader substitutes the empty dict. -/
structure RawConfig where
  handshake : Option RawHandshake := none
  browser : Option RawBrowser := none
  filters : Option RawFilters := none
  application : Option RawApplication := none
  resume : Option RawResume := none
  llm : Option RawLLM := none
  qa : Option RawQA := none
deriving DecidableEq, Repr

/-- The three exception classes `settings.load_config` can raise:
`FileNotFoundError`, `ValueError` for the missing `handshake` section, and
`ValueError` for missing/empty credentials. -/
inductive ConfigError where
  | fileNotFound
  | missingHandshakeSection
  | missingCredentials
deriving DecidableEq, Repr

/-- `settings.load_config`. The outer `Option` is file existence (`none` when
the file is absent); an empty file parses to the all-`none` `RawConfig`.
Python's falsiness test `not hs.get("email")` holds for an absent key and
for the empty string alike. -/
def load_config (file : Option RawConfig) : Except ConfigError AutomationConfig :=
  match file with
  | none => .error .fileNotFound
  | some raw =>
    match raw.handshake with
    | none => .error .missingHandshakeSection
    | some hs =>
      if hs.email.getD "" == "" || hs.password.getD "" == "" then
        .error .missingCredentials
      else
        let browser := raw.browser.getD {}
        let filters := raw.filters.getD {}
        let application := raw.application.getD {}
        let resume := raw.resume.getD {}
        let llm := raw.llm.getD {}
        let qa := raw.qa.getD {}
        .ok {
          handshake := {
            email := hs.email.getD ""
            password := hs.password.getD ""
            login_url := hs.login_url.getD DEFAULT_HANDSHAKE_LOGIN_URL
            jobs_url := hs.jobs_url.getD DEFAULT_HANDSHAKE_JOBS_URL }
          browser := {
            headless := browser.headless.getD DEFAULT_BROWSER_HEADLESS
            slow_mo_ms := browser.slow_mo_ms.getD DEFAULT_BROWSER_SLOW_MO_MS
            timeout_ms := browser.timeout_ms.getD DEFAULT_BROWSER_TIMEOUT_MS }
          filters := {
            search_query := filters.search_query.getD DEFAULT_FILTER_SEARCH_QUERY
            include_keywords := filters.include_keywords.getD DEFAULT_INCLUDE_KEYWORDS
            exclude_keywords := filters.exclude_keywords.getD DEFAULT_EXCLUDE_KEYWORDS
            preferred_locations := filters.preferred_locations.getD DEFAULT_PREFERRED_LOCATIONS
            remote_only := filters.remote_only.getD DEFAULT_FILTER_REMOTE_ONLY
            max_discovered_jobs := filters.max_discovered_jobs.getD DEFAULT_FILTER_MAX_DISCOVERED }
          application := {
            dry_run := application.dry_run.getD DEFAULT_APP_DRY_RUN
            auto_submit := application.auto_submit.getD DEFAULT_APP_AUTO_SUBMIT
            max_applications := application.max_applications.getD DEFAULT_APP_MAX_APPLICATIONS
            pause_between_apps_sec :=
              application.pause_between_apps_sec.getD DEFAULT_APP_PAUSE_BETWEEN_SEC
            save_html_on_failure :=
              application.save_html_on_failure.getD DEFAULT_APP_SAVE_HTML_ON_FAILURE }
          resume := {
            mode := resume.mode.getD DEFAULT_RESUME_MODE
            base_resume_path := resume.base_resume_path.getD DEFAULT_RESUME_BASE_PATH
            template_path := resume.template_path.getD DEFAULT_RESUME_TEMPLATE_PATH
            output_dir := resume.output_dir.getD DEFAULT_RESUME_OUTPUT_DIR }
          llm := {
            enabled := llm.enabled.getD DEFAULT_LLM_ENABLED
            provider := llm.provider.getD DEFAULT_LLM_PROVIDER
            api_key_env := llm.api_key_env.getD DEFAULT_LLM_API_KEY_ENV
            model := llm.model.getD DEFAULT_LLM_MODEL
            temperature := llm.temperature.getD DEFAULT_LLM_TEMPERATURE }
          qa := {
            defaults_path := qa.defaults_path.getD DEFAULT_QA_DEFAULTS_PATH
            max_answer_chars := qa.max_answer_chars.getD DEFAULT_QA_MAX_ANSWER_CHARS } }

/-- Lines 65–71 of `cli.main`: apply the `--dry-run`, `--max-applications`
and `--headless` command-line overrides to the loaded configuration.
`dry_run`/`headless` are `store_true` flags; `max_applications` is `none`
when the flag is not given. -/
def apply_cli_overrides (config : AutomationConfig) (dry_run : Bool)
    (max_applications : Option Int) (headless : Bool) : AutomationConfig :=
  let c1 :=
    if dry_run then
      { config with application := { config.application with dry_run := true, auto_submit := false } }
    else config
  let c2 :=
    match max_applications with
    | some m => { c1 with application := { c1.application with max_applications := m } }
    | none => c1
  if headless then { c2 with browser := { c2.browser with headless := true } } else c2

/-! ## llm.py -/

/-- `LLMClient.answer_application_question`. `enabled` models
`self.enabled` (a client object exists); `chat_response` models the string
returned by `self._chat` for this call — `_chat` returns the stripped
message content, and the empty string when the client is missing or the
remote call raises. -/
def answer_application_question (enabled : Bool) (chat_response : String)
    (default_answer : String) (allowed_choices : List String) : String :=
  if !enabled then default_answer
  else
    let choices := allowed_choices
    let answer := pyStrip chat_response
    if answer == "" then default_answer
    else if !choices.isEmpty then
      match lowerLookup choices (lowerStr answer) with
      | some c => c
      | none =>
        match choices.find? (fun c => substrB (lowerStr c) (lowerStr answer)) with
        | some c => c
        | none => if choices.contains default_answer then default_answer else choices.headD ""
    else answer

/-- Modelled from the spec's words, for comparison with the source's
`answer_application_question`: §4.2 says the model's raw answer is matched
"case-insensitively against the choice set (exact match first, then
substring containment either direction)". Identical to the source function
except that the containment scan also accepts the answer occurring inside
the choice. -/
def spec_answer_application_question (enabled : Bool) (chat_response : String)
    (default_answer : String) (allowed_choices : List String) : String :=
  if !enabled then default_answer
  else
    let choices := allowed_choices
    let answer := pyStrip chat_response
    if answer == "" then default_answer
    else if !choices.isEmpty then
      match lowerLookup choices (lowerStr answer) with
      | some c => c
      | none =>
        match choices.find? (fun c =>
            substrB (lowerStr c) (lowerStr answer) || substrB (lowerStr answer) (lowerStr c)) with
        | some c => c
        | none => if choices.contains default_answer then default_answer else choices.headD ""
    else answer

/-! ## resume_builder.py -/

/-- The character class `[a-zA-Z0-9]` of the regex in `_safe_slug`. -/
def isAsciiAlnum (c : Char) : Bool :=
  (65 ≤ c.toNat && c.toNat ≤ 90) || (97 ≤ c.toNat && c.toNat ≤ 122)
    || (48 ≤ c.toNat && c.toNat ≤ 57)

/-- `re.sub(r"[^a-zA-Z0-9]+", "-", value)` on the character list: every
maximal run of non-alphanumeric characters becomes a single hyphen. The
boolean argument records whether such a run is in progress. -/
def collapseRuns : Bool → List Char → List Char
  | _, [] => []
  | inRun, c :: rest =>
    if isAsciiAlnum c then c :: collapseRuns false rest
    else if inRun then collapseRuns true rest
    else '-' :: collapseRuns true rest

/-- `resume_builder._safe_slug`: substitute non-alphanumeric runs with a
hyphen, strip hyphens from the ends, lowercase, truncate, and fall back to
"job" when nothing is left. -/
def safe_slug (value : String) (limit : Nat := 60) : String :=
  let cleaned :=
    ((dropEndsWhile (fun c => c == '-') (collapseRuns false value.data)).map Char.toLower)
  if cleaned.take limit == [] then "job" else ⟨cleaned.take limit⟩

/-- The slug input built by `ResumeBuilder.build` line 43:
`f"\x7bjob.company\x7d-\x7bjob.title\x7d-\x7bjob.job_id\x7d"`. -/
def slug_input (job : JobPosting) : String :=
  job.company ++ "-" ++ job.title ++ "-" ++ job.job_id

/-! ## handshake_bot.py -/

/-- The concatenated, lowercased job text of `_matches_filters` line 262. -/
def jobText (job : JobPosting) : String :=
  lowerStr (job.title ++ "\n" ++ job.company ++ "\n" ++ job.location ++ "\n" ++ job.description)

/-- Keyword-list normalisation of `_matches_filters` lines 264–268: keep the
keywords that are non-blank after stripping, lowercased. -/
def normalized_keywords (kws : List String) : List String :=
  (kws.filter (fun kw => !(pyStrip kw == ""))).map lowerStr

/-- `HandshakeBot._matches_filters`. -/
def matches_filters (fc : FilterConfig) (job : JobPosting) : Bool :=
  let text := jobText job
  let includeKws := normalized_keywords fc.include_keywords
  let exclude := normalized_keywords fc.exclude_keywords
  let preferred_locations := normalized_keywords fc.preferred_locations
  if !includeKws.isEmpty && !(includeKws.any (fun kw => substrB kw text)) then false
  else if !exclude.isEmpty && exclude.any (fun kw => substrB kw text) then false
  else if fc.remote_only && !(substrB "remote" text) then false
  else if !preferred_locations.isEmpty
      && !(preferred_locations.any (fun l => substrB l text)) then false
  else true

/-- One pass of the `_apply_to_job` loop as observed on the page:
whether the interactions of the pass (upload, field filling) raise, whether
`_has_submit_button` sees a submit-labeled control, whether `_click_submit`
would fail to click it, and whether `_click_next_step` finds a
next/continue/review button. -/
structure ApplyStep where
  fillRaises : Bool := false
  fillErrMsg : String := ""
  hasSubmit : Bool := false
  submitClickFails : Bool := false
  hasNext : Bool := false
deriving Repr

/-- The page behaviour an `_apply_to_job` call observes for one job:
whether the navigation/`goto` raises, whether `_click_apply` finds an apply
affordance, whether `ResumeBuilder.build` raises, and the per-pass
observations. -/
structure ApplyEnv where
  gotoRaises : Bool := false
  gotoErrMsg : String := ""
  applyClicked : Bool := true
  buildRaises : Bool := false
  buildErrMsg : String := ""
  steps : Nat → ApplyStep

/-- The page interactions the bot performs that the claims track. -/
inductive BotAction where
  | clickApply
  | clickSubmit
  | clickNext
deriving DecidableEq, Repr

/-- Build an `ApplicationResult` for a job from a status and reason. -/
def mkResult (job : JobPosting) (status reason : String) : ApplicationResult :=
  { job_id := job.job_id, title := job.title, company := job.company,
    url := job.url, status := status, reason := reason }

/-- The `for _ in range(14)` loop of `_apply_to_job` (lines 306–343),
starting at pass `i` with `remaining` passes left. Returns the result
together with the submit/next clicks performed. An exception raised during
a pass is caught by the enclosing `try` and recorded as a failed result. -/
def apply_loop (app : ApplicationConfig) (job : JobPosting) (env : ApplyEnv)
    (i : Nat) : Nat → ApplicationResult × List BotAction
  | 0 => (mkResult job "failed" "unable_to_reach_submit", [])
  | remaining + 1 =>
    let st := env.steps i
    if st.fillRaises then (mkResult job "failed" st.fillErrMsg, [])
    else if st.hasSubmit then
      if app.dry_run || !app.auto_submit then
        (mkResult job "dry_run_ready" "submit_button_reached", [])
      else if st.submitClickFails then
        (mkResult job "failed" "Submit button not clickable", [])
      else (mkResult job "applied" "", [.clickSubmit])
    else if !st.hasNext then (mkResult job "failed" "unable_to_reach_submit", [])
    else
      let rec_result := apply_loop app job env (i + 1) remaining
      (rec_result.1, .clickNext :: rec_result.2)

/-- `HandshakeBot._apply_to_job`. -/
def apply_to_job (app : ApplicationConfig) (job : JobPosting) (env : ApplyEnv) :
    ApplicationResult × List BotAction :=
  if env.gotoRaises then (mkResult job "failed" env.gotoErrMsg, [])
  else if !env.applyClicked then (mkResult job "skipped" "apply_button_not_found", [])
  else if env.buildRaises then (mkResult job "failed" env.buildErrMsg, [.clickApply])
  else
    let loop := apply_loop app job env 0 14
    (loop.1, .clickApply :: loop.2)

/-- Whether the `_apply_to_job` loop, run from pass `i` with `remaining`
passes left, reaches a pass where `_has_submit_button` detects a
submit-labeled control. -/
def reaches_submit (env : ApplyEnv) (i : Nat) : Nat → Bool
  | 0 => false
  | remaining + 1 =>
    let st := env.steps i
    if st.fillRaises then false
    else if st.hasSubmit then true
    else if !st.hasNext then false
    else reaches_submit env (i + 1) remaining

/-- The result `HandshakeBot.run` records for one job that the loop reached:
the filter-mismatch skip of lines 61–72, or the apply flow's result. -/
def result_for (config : AutomationConfig) (env : JobPosting → ApplyEnv)
    (job : JobPosting) : ApplicationResult :=
  if !matches_filters config.filters job then mkResult job "skipped" "filter_mismatch"
  else (apply_to_job config.application job (env job)).1

/-- The per-job loop of `HandshakeBot.run` (lines 55–79) over the
already-enriched discovered jobs, carrying the `applied_or_ready` counter;
returns the in-memory results list. -/
def run_loop (config : AutomationConfig) (env : JobPosting → ApplyEnv) :
    List JobPosting → Nat → List ApplicationResult
  | [], _ => []
  | job :: rest, applied_or_ready =>
    if config.application.max_applications ≤ (applied_or_ready : Int) then []
    else
      let r := result_for config env job
      let bump :=
        if r.status == "applied" || r.status == "ready_to_submit"
            || r.status == "dry_run_ready" then 1 else 0
      r :: run_loop config env rest (applied_or_ready + bump)

/-! ## Helper lemmas -/

theorem lowerLookup_mem {cs : List String} {k c : String}
    (h : lowerLookup cs k = some c) : c ∈ cs ∧ lowerStr c = k := by
  have hm := List.mem_of_getLast?_eq_some h
  have h2 := List.mem_filter.1 hm
  refine ⟨h2.1, ?_⟩
  simpa using h2.2

theorem lowerLookup_exists {cs : List String} {k : String}
    (h : ∃ c ∈ cs, lowerStr c = k) : ∃ c, lowerLookup cs k = some c := by
  obtain ⟨c, hc, hk⟩ := h
  unfold lowerLookup
  cases hl : (cs.filter fun c => lowerStr c == k).getLast? with
  | some x => exact ⟨x, rfl⟩
  | none =>
    rw [List.getLast?_eq_none_iff] at hl
    exfalso
    have hmem : c ∈ cs.filter (fun c => lowerStr c == k) :=
      List.mem_filter.2 ⟨hc, by simp [hk]⟩
    rw [hl] at hmem
    exact absurd hmem (List.not_mem_nil c)

theorem match_choice_spec (a : String) (cs : List String) :
    match_choice a cs = "" ∨ match_choice a cs ∈ cs := by
  unfold match_choice
  split
  · exact Or.inl rfl
  · cases heq : lowerLookup cs (lowerStr a) with
    | some c =>
      exact Or.inr (lowerLookup_mem heq).1
    | none =>
      cases hf : cs.find? (fun c =>
          substrB (lowerStr c) (lowerStr a) || substrB (lowerStr a) (lowerStr c)) with
      | some c =>
        exact Or.inr (List.mem_of_find?_eq_some hf)
      | none =>
        exact Or.inl rfl

theorem match_choice_mem {a : String} {cs : List String}
    (h : match_choice a cs ≠ "") : match_choice a cs ∈ cs :=
  (match_choice_spec a cs).resolve_left h

theorem match_choice_exact {a : String} {cs : List String} (ha : a ≠ "")
    (h : ∃ c ∈ cs, lowerStr c = lowerStr a) :
    match_choice a cs ∈ cs ∧ lowerStr (match_choice a cs) = lowerStr a := by
  obtain ⟨c, hlk⟩ := lowerLookup_exists h
  unfold match_choice
  rw [if_neg (by simpa using ha), hlk]
  exact ⟨(lowerLookup_mem hlk).1, (lowerLookup_mem hlk).2⟩

theorem mem_normalize_choices_ne_empty {c : String} {cs : List String}
    (h : c ∈ normalize_choices cs) : c ≠ "" := by
  unfold normalize_choices at h
  have h2 := (List.mem_filter.1 h).2
  simpa using h2

theorem headD_mem {α : Type} {cs : List α} (h : cs ≠ []) (d : α) : cs.headD d ∈ cs := by
  cases cs with
  | nil => exact absurd rfl h
  | cons a t => simp [List.headD]

/-- The behaviour of `QuestionAnswerer.answer` when the normalized choice
list is non-empty: the `max_answer_chars` truncation paths are unreachable,
so the outcome is fully described by this truncation-free function. -/
def choiceOnlyAnswer (defaults : String → Option String) (rules : List AliasRule)
    (llm_enabled : Bool) (llm_response : String) (prompt : String)
    (choices0 : List String) : String × Bool :=
  let prompt_norm := lowerStr (pyStrip prompt)
  let choices := normalize_choices choices0
  let default_answer := resolve_default defaults rules prompt_norm
  let res :=
    if llm_enabled && !(llm_response == "") then
      (let mc := match_choice llm_response choices
       if mc == "" then choices.headD "" else mc)
    else if !(default_answer == "") then
      (let mc := match_choice default_answer choices
       if mc == "" then choices.headD "" else mc)
    else choices.headD ""
  if !(match_choice default_answer choices == "") then
    (match_choice default_answer choices, false)
  else (res, llm_enabled)

theorem answer_choices_nonempty_eq (defaults : String → Option String)
    (rules : List AliasRule) (m : Nat) (llm_enabled : Bool)
    (llm_response prompt input_type : String) (choices0 : List String)
    (hcs : normalize_choices choices0 ≠ []) :
    answer defaults rules m llm_enabled llm_response prompt input_type choices0
      = choiceOnlyAnswer defaults rules llm_enabled llm_response prompt choices0 := by
  have hie : (normalize_choices choices0).isEmpty = false := by simp [hcs]
  unfold answer choiceOnlyAnswer
  simp only [hie, Bool.not_false, Bool.true_and, if_true]

/-! ## Claim C2 -/

/-- C2 counterexample: the claim as stated fails on empty alias patterns.
The empty string is a substring of every prompt, so for the rule list
`[(key "k", patterns [""])]` and prompt `"x"` the claim predicts the
resolved key `"k"`; `_alias_key_for_prompt` skips empty patterns
(`if pattern and pattern in prompt`) and resolves no key at all. -/
theorem C2_empty_pattern_counterexample :
    substrB "" "x" = true
    ∧ alias_key_for_prompt [⟨"k", [""]⟩] "x" = ""
    ∧ ("" : String) ≠ "k" := by
  refine ⟨rfl, rfl, ?_⟩
  decide

/-- C2 (amended to non-empty patterns): for every prompt, if no alias rule
has a non-empty pattern occurring in the prompt, no key is resolved (the
empty string); and whenever some rule does, the resolved key is the key of
the first such rule in list order, independent of later rules also
matching. -/
theorem C2_first_matching_rule_wins :
    (∀ (rules : List AliasRule) (prompt : String),
        (∀ r ∈ rules, ruleMatches prompt r = false) →
        alias_key_for_prompt rules prompt = "")
    ∧ (∀ (pre post : List AliasRule) (r : AliasRule) (prompt : String),
        (∀ r₀ ∈ pre, ruleMatches prompt r₀ = false) →
        ruleMatches prompt r = true →
        alias_key_for_prompt (pre ++ r :: post) prompt = r.key) := by
  constructor
  · intro rules prompt h
    induction rules with
    | nil => rfl
    | cons a t ih =>
      have ha := h a (List.mem_cons_self a t)
      unfold ruleMatches at ha
      unfold alias_key_for_prompt
      rw [ha]
      simpa using ih (fun r hr => h r (List.mem_cons_of_mem a hr))
  · intro pre post r prompt hpre hr
    unfold ruleMatches at hr
    induction pre with
    | nil =>
      rw [List.nil_append]
      unfold alias_key_for_prompt
      rw [hr]
      rfl
    | cons a t ih =>
      have ha := hpre a (List.mem_cons_self a t)
      unfold ruleMatches at ha
      rw [List.cons_append]
      unfold alias_key_for_prompt
      rw [ha]
      simpa using ih (fun r₀ hr₀ => hpre r₀ (List.mem_cons_of_mem a hr₀))

/-- C2 witness: a prompt matched by no rule resolves no key, and with three
rules whose second and third both match, the second's key wins. -/
theorem C2_first_matching_rule_wins_witness :
    alias_key_for_prompt [⟨"a", ["zzz"]⟩] "hello" = ""
    ∧ alias_key_for_prompt
        [⟨"a", ["zzz"]⟩, ⟨"b", ["ell"]⟩, ⟨"c", ["hello"]⟩] "hello" = "b" := by
  constructor
  · exact C2_first_matching_rule_wins.1 [⟨"a", ["zzz"]⟩] "hello" (by decide)
  · exact C2_first_matching_rule_wins.2 [⟨"a", ["zzz"]⟩] [⟨"c", ["hello"]⟩]
      ⟨"b", ["ell"]⟩ "hello" (by decide) (by decide)

/-! ## Claim C3 -/

/-- C3: whenever the resolved default answer is non-empty, the normalized
choice list is non-empty, and it contains a case-insensitive variant of the
default, `answer()` returns an element of the choice list (in the list's
casing, lowercasing to the default's lowercasing) and the LLM client is
never invoked. -/
theorem C3_default_choice_short_circuit :
    ∀ (defaults : String → Option String) (rules : List AliasRule) (m : Nat)
      (llm_enabled : Bool) (llm_response prompt input_type : String)
      (choices0 : List String),
      resolve_default defaults rules (lowerStr (pyStrip prompt)) ≠ "" →
      normalize_choices choices0 ≠ [] →
      (∃ c ∈ normalize_choices choices0,
          lowerStr c = lowerStr (resolve_default defaults rules (lowerStr (pyStrip prompt)))) →
      (answer defaults rules m llm_enabled llm_response prompt input_type choices0).1
          ∈ normalize_choices choices0
      ∧ lowerStr (answer defaults rules m llm_enabled llm_response prompt input_type choices0).1
          = lowerStr (resolve_default defaults rules (lowerStr (pyStrip prompt)))
      ∧ (answer defaults rules m llm_enabled llm_response prompt input_type choices0).2
          = false := by
  intro defaults rules m llm_enabled llm_response prompt input_type choices0 hd hcs hex
  have hmc := match_choice_exact hd hex
  have hne : match_choice (resolve_default defaults rules (lowerStr (pyStrip prompt)))
      (normalize_choices choices0) ≠ "" := by
    intro h0
    have hmem : ("" : String) ∈ normalize_choices choices0 := h0 ▸ hmc.1
    exact (mem_normalize_choices_ne_empty hmem) rfl
  have hcond : (!(normalize_choices choices0).isEmpty
      && !(match_choice (resolve_default defaults rules (lowerStr (pyStrip prompt)))
            (normalize_choices choices0) == "")) = true := by
    simp [hcs, hne]
  unfold answer
  rw [if_pos hcond]
  exact ⟨hmc.1, hmc.2, rfl⟩

/-- C3 witness: with a defaults file keying "authorized" to "yes" and
choices "Yes"/"No", the answer is exactly "Yes" from the list and the LLM
is not called even though enabled. -/
theorem C3_default_choice_short_circuit_witness :
    (answer (fun k => if k == "wa" then some "yes" else none)
        [⟨"wa", ["authorized"]⟩] 1000 true "Something Else"
        "Are you authorized to work?" "radio" ["Yes", "No"]).1
      ∈ normalize_choices ["Yes", "No"]
    ∧ lowerStr (answer (fun k => if k == "wa" then some "yes" else none)
        [⟨"wa", ["authorized"]⟩] 1000 true "Something Else"
        "Are you authorized to work?" "radio" ["Yes", "No"]).1
      = lowerStr (resolve_default (fun k => if k == "wa" then some "yes" else none)
          [⟨"wa", ["authorized"]⟩] (lowerStr (pyStrip "Are you authorized to work?")))
    ∧ (answer (fun k => if k == "wa" then some "yes" else none)
        [⟨"wa", ["authorized"]⟩] 1000 true "Something Else"
        "Are you authorized to work?" "radio" ["Yes", "No"]).2 = false :=
  C3_default_choice_short_circuit (fun k => if k == "wa" then some "yes" else none)
    [⟨"wa", ["authorized"]⟩] 1000 true "Something Else"
    "Are you authorized to work?" "radio" ["Yes", "No"]
    (by decide) (by decide) (by decide)

/-! ## Claim C6 -/

/-- C6: with an empty (or missing) QA defaults file and the LLM client
disabled, `answer()` falls back to the heuristic table over the normalized
prompt: "authorized to work"/"work authorization" yields "Yes", otherwise
"sponsorship"/"visa" yields "No", otherwise "relocate" yields "Yes", and
any other prompt yields the empty string when no choices are supplied
(assuming the configured answer cap is at least 3, the length of "Yes"). -/
theorem C6_heuristic_fallback :
    ∀ (m : Nat) (llm_response prompt input_type : String), 3 ≤ m →
    ((substrB "authorized to work" (lowerStr (pyStrip prompt))
        || substrB "work authorization" (lowerStr (pyStrip prompt))) = true →
      (answer (fun _ => none) [] m false llm_response prompt input_type []).1 = "Yes")
    ∧ ((substrB "authorized to work" (lowerStr (pyStrip prompt))
        || substrB "work authorization" (lowerStr (pyStrip prompt))) = false →
       (substrB "sponsorship" (lowerStr (pyStrip prompt))
        || substrB "visa" (lowerStr (pyStrip prompt))) = true →
      (answer (fun _ => none) [] m false llm_response prompt input_type []).1 = "No")
    ∧ ((substrB "authorized to work" (lowerStr (pyStrip prompt))
        || substrB "work authorization" (lowerStr (pyStrip prompt))) = false →
       (substrB "sponsorship" (lowerStr (pyStrip prompt))
        || substrB "visa" (lowerStr (pyStrip prompt))) = false →
       substrB "relocate" (lowerStr (pyStrip prompt)) = true →
      (answer (fun _ => none) [] m false llm_response prompt input_type []).1 = "Yes")
    ∧ ((substrB "authorized to work" (lowerStr (pyStrip prompt))
        || substrB "work authorization" (lowerStr (pyStrip prompt))) = false →
       (substrB "sponsorship" (lowerStr (pyStrip prompt))
        || substrB "visa" (lowerStr (pyStrip prompt))) = false →
       substrB "relocate" (lowerStr (pyStrip prompt)) = false →
      (answer (fun _ => none) [] m false llm_response prompt input_type []).1 = "") := by
  intro m llm_response prompt input_type hm
  have hresolve : resolve_default (fun _ => none) [] (lowerStr (pyStrip prompt))
      = heuristic_default (lowerStr (pyStrip prompt)) := by
    unfold resolve_default alias_key_for_prompt
    simp
  have h3 : ("Yes" : String).data.length ≤ m := by
    have h0 : ("Yes" : String).data.length = 3 := rfl
    omega
  have h2 : ("No" : String).data.length ≤ m := by
    have h0 : ("No" : String).data.length = 2 := rfl
    omega
  have hYes : pySlice "Yes" m = "Yes" := by
    unfold pySlice
    rw [List.take_of_length_le h3]
  have hNo : pySlice "No" m = "No" := by
    unfold pySlice
    rw [List.take_of_length_le h2]
  refine ⟨?_, ?_, ?_, ?_⟩
  · intro hauth
    have hheur : heuristic_default (lowerStr (pyStrip prompt)) = "Yes" := by
      simp [heuristic_default, hauth]
    simp [answer, normalize_choices, hresolve, hheur, hYes]
  · intro hauth hspons
    have hheur : heuristic_default (lowerStr (pyStrip prompt)) = "No" := by
      simp [heuristic_default, hauth, hspons]
    simp [answer, normalize_choices, hresolve, hheur, hNo]
  · intro hauth hspons hreloc
    have hheur : heuristic_default (lowerStr (pyStrip prompt)) = "Yes" := by
      simp [heuristic_default, hauth, hspons, hreloc]
    simp [answer, normalize_choices, hresolve, hheur, hYes]
  · intro hauth hspons hreloc
    have hheur : heuristic_default (lowerStr (pyStrip prompt)) = "" := by
      simp [heuristic_default, hauth, hspons, hreloc]
    simp [answer, normalize_choices, hresolve, hheur]

/-- C6 witness: concrete prompts hitting each heuristic row. -/
theorem C6_heuristic_fallback_witness :
    (answer (fun _ => none) [] 1000 false "" "Are you authorized to work in the US?"
        "text" []).1 = "Yes"
    ∧ (answer (fun _ => none) [] 1000 false "" "Will you require visa sponsorship?"
        "text" []).1 = "No"
    ∧ (answer (fun _ => none) [] 1000 false "" "Are you willing to relocate?"
        "text" []).1 = "Yes"
    ∧ (answer (fun _ => none) [] 1000 false "" "What is your favorite color?"
        "text" []).1 = "" := by
  refine ⟨?_, ?_, ?_, ?_⟩
  · exact (C6_heuristic_fallback 1000 "" "Are you authorized to work in the US?" "text"
      (by omega)).1 (by decide)
  · exact (C6_heuristic_fallback 1000 "" "Will you require visa sponsorship?" "text"
      (by omega)).2.1 (by decide) (by decide)
  · exact (C6_heuristic_fallback 1000 "" "Are you willing to relocate?" "text"
      (by omega)).2.2.1 (by decide) (by decide) (by decide)
  · exact (C6_heuristic_fallback 1000 "" "What is your favorite color?" "text"
      (by omega)).2.2.2 (by decide) (by decide) (by decide)

/-! ## Claim C10 -/

/-- C10: whenever the normalized choice list is non-empty, `answer()`
returns an element of that list — whatever the defaults file, alias rules,
heuristic table, or LLM response — and the result does not depend on
`qa.max_answer_chars` (no truncation is applied to a returned choice). -/
theorem C10_nonempty_choices_closed :
    ∀ (defaults : String → Option String) (rules : List AliasRule) (m₁ m₂ : Nat)
      (llm_enabled : Bool) (llm_response prompt input_type : String)
      (choices0 : List String),
      normalize_choices choices0 ≠ [] →
      (answer defaults rules m₁ llm_enabled llm_response prompt input_type choices0).1
          ∈ normalize_choices choices0
      ∧ answer defaults rules m₁ llm_enabled llm_response prompt input_type choices0
          = answer defaults rules m₂ llm_enabled llm_response prompt input_type choices0 := by
  intro defaults rules m₁ m₂ llm_enabled llm_response prompt input_type choices0 hcs
  constructor
  · rw [answer_choices_nonempty_eq defaults rules m₁ llm_enabled llm_response prompt
      input_type choices0 hcs]
    unfold choiceOnlyAnswer
    by_cases h1 : match_choice
        (resolve_default defaults rules (lowerStr (pyStrip prompt)))
        (normalize_choices choices0) = ""
    · rw [if_neg (by simp [h1])]
      dsimp only
      by_cases hllm : (llm_enabled && !(llm_response == "")) = true
      · rw [if_pos hllm]
        by_cases h3 : match_choice llm_response (normalize_choices choices0) = ""
        · rw [if_pos (by simp [h3])]
          exact headD_mem hcs ""
        · rw [if_neg (by simp [h3])]
          exact match_choice_mem h3
      · rw [if_neg hllm]
        by_cases h4 : resolve_default defaults rules (lowerStr (pyStrip prompt)) = ""
        · rw [if_neg (by simp [h4])]
          exact headD_mem hcs ""
        · rw [if_pos (by simp [h4])]
          rw [if_pos (by simp [h1])]
          exact headD_mem hcs ""
    · rw [if_pos (by simp [h1])]
      exact match_choice_mem h1
  · rw [answer_choices_nonempty_eq defaults rules m₁ llm_enabled llm_response prompt
      input_type choices0 hcs,
      answer_choices_nonempty_eq defaults rules m₂ llm_enabled llm_response prompt
      input_type choices0 hcs]

/-- C10 witness: with choices supplied, an enabled LLM whose free-text reply
matches no choice still yields the first choice, identically for two
different answer caps. -/
theorem C10_nonempty_choices_closed_witness :
    (answer (fun _ => none) [] 5 true "Some unrelated reply" "Pick one" "select"
        ["Alpha", "Beta"]).1 ∈ normalize_choices ["Alpha", "Beta"]
    ∧ answer (fun _ => none) [] 5 true "Some unrelated reply" "Pick one" "select"
        ["Alpha", "Beta"]
      = answer (fun _ => none) [] 9 true "Some unrelated reply" "Pick one" "select"
        ["Alpha", "Beta"] :=
  C10_nonempty_choices_closed (fun _ => none) [] 5 9 true "Some unrelated reply"
    "Pick one" "select" ["Alpha", "Beta"] (by decide)

/-! ## Claim C4 -/

theorem find?_first {α : Type} (p : α → Bool) (pre : List α) (c : α) (post : List α)
    (hpre : ∀ x ∈ pre, p x = false) (hc : p c = true) :
    (pre ++ c :: post).find? p = some c := by
  induction pre with
  | nil =>
    rw [List.nil_append]
    exact List.find?_cons_of_pos post hc
  | cons a t ih =>
    rw [List.cons_append, List.find?_cons_of_neg _ (by simp [hpre a (List.mem_cons_self a t)])]
    exact ih (fun x hx => hpre x (List.mem_cons_of_mem a hx))

/-- C4 counterexample: the spec says the model's raw answer is matched by
"substring containment either direction", but `llm.py` line 141 only tests
the choice occurring inside the answer. For choices `["A", "Yes indeed"]`,
raw answer `"Yes"` and empty default, the spec-faithful matcher picks
`"Yes indeed"` (the answer occurs inside it) while the code falls through
to the first choice `"A"`. -/
theorem C4_one_direction_counterexample :
    answer_application_question true "Yes" "" ["A", "Yes indeed"] = "A"
    ∧ spec_answer_application_question true "Yes" "" ["A", "Yes indeed"] = "Yes indeed"
    ∧ ("A" : String) ≠ "Yes indeed" := by
  refine ⟨by decide, by decide, by decide⟩

/-- C4 (amended: substring containment tests only the choice occurring
inside the model's answer): `answer_application_question` returns the
default verbatim when disabled or when the (stripped) remote reply is
empty; with choices and a non-empty reply it takes a case-insensitive exact
match first, else the first choice whose lowercasing occurs inside the
lowercased reply, else the default if it is literally one of the choices,
else the first choice; with no choices it returns the reply itself. -/
theorem C4_answer_application_question_props :
    ∀ (enabled : Bool) (chat_response default_answer : String) (cs : List String),
      (enabled = false →
        answer_application_question enabled chat_response default_answer cs = default_answer)
      ∧ (pyStrip chat_response = "" →
        answer_application_question enabled chat_response default_answer cs = default_answer)
      ∧ (enabled = true → pyStrip chat_response ≠ "" → cs ≠ [] →
          ((∃ c ∈ cs, lowerStr c = lowerStr (pyStrip chat_response)) →
            answer_application_question enabled chat_response default_answer cs ∈ cs
            ∧ lowerStr (answer_application_question enabled chat_response default_answer cs)
                = lowerStr (pyStrip chat_response))
          ∧ ((¬∃ c ∈ cs, lowerStr c = lowerStr (pyStrip chat_response)) →
              ∀ (pre : List String) (c : String) (post : List String),
                cs = pre ++ c :: post →
                substrB (lowerStr c) (lowerStr (pyStrip chat_response)) = true →
                (∀ c₀ ∈ pre,
                  substrB (lowerStr c₀) (lowerStr (pyStrip chat_response)) = false) →
                answer_application_question enabled chat_response default_answer cs = c)
          ∧ ((∀ c ∈ cs, lowerStr c ≠ lowerStr (pyStrip chat_response)
                ∧ substrB (lowerStr c) (lowerStr (pyStrip chat_response)) = false) →
              answer_application_question enabled chat_response default_answer cs
                = if default_answer ∈ cs then default_answer else cs.headD ""))
      ∧ (enabled = true → pyStrip chat_response ≠ "" → cs = [] →
          answer_application_question enabled chat_response default_answer cs
            = pyStrip chat_response) := by
  intro enabled chat_response default_answer cs
  refine ⟨?_, ?_, ?_, ?_⟩
  · intro h
    simp [answer_application_question, h]
  · intro h
    by_cases he : enabled = true
    · simp [answer_application_question, he, h]
    · simp [answer_application_question, Bool.eq_false_iff.2 he]
  · intro he ha hcs
    refine ⟨?_, ?_, ?_⟩
    · intro hex
      obtain ⟨c, hlk⟩ := lowerLookup_exists hex
      have hprops := lowerLookup_mem hlk
      unfold answer_application_question
      rw [he]
      simp only [Bool.not_true, Bool.false_eq_true, if_false]
      rw [if_neg (by simpa using ha), if_pos (by simp [hcs]), hlk]
      exact hprops
    · intro hnex pre c post hsplit hc hpre
      have hfilter : cs.filter (fun x => lowerStr x == lowerStr (pyStrip chat_response)) = [] := by
        refine List.filter_eq_nil_iff.2 (fun x hx => ?_)
        simp only [beq_iff_eq]
        intro heq
        exact hnex ⟨x, hx, heq⟩
      have hlk : lowerLookup cs (lowerStr (pyStrip chat_response)) = none := by
        unfold lowerLookup
        rw [hfilter]
        rfl
      have hfind : cs.find?
          (fun x => substrB (lowerStr x) (lowerStr (pyStrip chat_response))) = some c := by
        rw [hsplit]
        exact find?_first _ pre c post hpre hc
      unfold answer_application_question
      rw [he]
      simp only [Bool.not_true, Bool.false_eq_true, if_false]
      rw [if_neg (by simpa using ha), if_pos (by simp [hcs]), hlk, hfind]
    · intro hnone
      have hfilter : cs.filter (fun x => lowerStr x == lowerStr (pyStrip chat_response)) = [] := by
        refine List.filter_eq_nil_iff.2 (fun x hx => ?_)
        simp only [beq_iff_eq]
        exact (hnone x hx).1
      have hlk : lowerLookup cs (lowerStr (pyStrip chat_response)) = none := by
        unfold lowerLookup
        rw [hfilter]
        rfl
      have hfind : cs.find?
          (fun x => substrB (lowerStr x) (lowerStr (pyStrip chat_response))) = none := by
        rw [List.find?_eq_none]
        intro x hx
        simp [(hnone x hx).2]
      unfold answer_application_question
      rw [he]
      simp only [Bool.not_true, Bool.false_eq_true, if_false]
      rw [if_neg (by simpa using ha), if_pos (by simp [hcs]), hlk, hfind]
      by_cases hd : default_answer ∈ cs <;> simp [List.contains, hd]
  · intro he ha hemp
    unfold answer_application_question
    rw [he]
    simp only [Bool.not_true, Bool.false_eq_true, if_false]
    rw [if_neg (by simpa using ha), if_neg (by simp [hemp])]

/-- C4 witness: concrete instances of each clause — disabled client returns
the default; an exact (case-insensitive) match wins; a one-direction
containment match wins; with no match the in-list default wins. -/
theorem C4_answer_application_question_props_witness :
    answer_application_question false "whatever" "Dflt" ["X"] = "Dflt"
    ∧ (answer_application_question true "  yES " "d" ["no", "yes"] ∈ (["no", "yes"] : List String)
       ∧ lowerStr (answer_application_question true "  yES " "d" ["no", "yes"])
           = lowerStr (pyStrip "  yES "))
    ∧ answer_application_question true "I said B!" "d" ["X", "B"] = "B"
    ∧ answer_application_question true "zzz" "B" ["A", "B"] = "B" := by
  refine ⟨?_, ?_, ?_, ?_⟩
  · exact (C4_answer_application_question_props false "whatever" "Dflt" ["X"]).1 rfl
  · exact ((C4_answer_application_question_props true "  yES " "d" ["no", "yes"]).2.2.1
      rfl (by decide) (by decide)).1 (by decide)
  · exact (((C4_answer_application_question_props true "I said B!" "d" ["X", "B"]).2.2.1
      rfl (by decide) (by decide)).2.1 (by decide) ["X"] "B" [] rfl (by decide) (by decide))
  · have h := (((C4_answer_application_question_props true "zzz" "B" ["A", "B"]).2.2.1
      rfl (by decide) (by decide)).2.2 (by decide))
    simpa using h

/-! ## Claim C5 -/

/-- The fully-defaulted configuration produced for a file containing only
`handshake: (email, password)`: every optional field takes its documented
default. -/
def defaulted_config (e p : String) : AutomationConfig :=
  AutomationConfig.mk
    (HandshakeConfig.mk e p DEFAULT_HANDSHAKE_LOGIN_URL DEFAULT_HANDSHAKE_JOBS_URL)
    (BrowserConfig.mk DEFAULT_BROWSER_HEADLESS DEFAULT_BROWSER_SLOW_MO_MS
      DEFAULT_BROWSER_TIMEOUT_MS)
    (FilterConfig.mk DEFAULT_FILTER_SEARCH_QUERY DEFAULT_INCLUDE_KEYWORDS
      DEFAULT_EXCLUDE_KEYWORDS DEFAULT_PREFERRED_LOCATIONS DEFAULT_FILTER_REMOTE_ONLY
      DEFAULT_FILTER_MAX_DISCOVERED)
    (ApplicationConfig.mk DEFAULT_APP_DRY_RUN DEFAULT_APP_AUTO_SUBMIT
      DEFAULT_APP_MAX_APPLICATIONS DEFAULT_APP_PAUSE_BETWEEN_SEC
      DEFAULT_APP_SAVE_HTML_ON_FAILURE)
    (ResumeConfig.mk DEFAULT_RESUME_MODE DEFAULT_RESUME_BASE_PATH
      DEFAULT_RESUME_TEMPLATE_PATH DEFAULT_RESUME_OUTPUT_DIR)
    (LLMConfig.mk DEFAULT_LLM_ENABLED DEFAULT_LLM_PROVIDER DEFAULT_LLM_API_KEY_ENV
      DEFAULT_LLM_MODEL DEFAULT_LLM_TEMPERATURE)
    (QAConfig.mk DEFAULT_QA_DEFAULTS_PATH DEFAULT_QA_MAX_ANSWER_CHARS)

/-- C5: `load_config` fails when the file is absent, when the `handshake`
section is missing, or when `handshake.email`/`handshake.password` is
absent or empty; with only a `handshake` section supplied every optional
field takes its documented default; and the CLI overrides `--dry-run`
(which also clears auto_submit), `--max-applications` and `--headless` take
precedence over the loaded values. -/
theorem C5_load_config_contract :
    load_config none = Except.error ConfigError.fileNotFound
    ∧ (∀ raw : RawConfig, raw.handshake = none →
        load_config (some raw) = Except.error ConfigError.missingHandshakeSection)
    ∧ (∀ (raw : RawConfig) (hs : RawHandshake), raw.handshake = some hs →
        (hs.email.getD "" = "" ∨ hs.password.getD "" = "") →
        load_config (some raw) = Except.error ConfigError.missingCredentials)
    ∧ (∀ e p : String, e ≠ "" → p ≠ "" →
        load_config (some { handshake := some { email := some e, password := some p } })
          = Except.ok (defaulted_config e p))
    ∧ (∀ (cfg : AutomationConfig) (m : Int),
        (apply_cli_overrides cfg true (some m) true).application.dry_run = true
        ∧ (apply_cli_overrides cfg true (some m) true).application.auto_submit = false
        ∧ (apply_cli_overrides cfg true (some m) true).application.max_applications = m
        ∧ (apply_cli_overrides cfg true (some m) true).browser.headless = true) := by
  refine ⟨rfl, ?_, ?_, ?_, ?_⟩
  · intro raw h
    simp only [load_config]
    rw [h]
  · intro raw hs h hor
    simp only [load_config]
    rw [h]
    have hc : (hs.email.getD "" == "" || hs.password.getD "" == "") = true := by
      rcases hor with h1 | h1 <;> simp [h1]
    simp [hc]
  · intro e p he hp
    simp [load_config, defaulted_config, he, hp]
  · intro cfg m
    refine ⟨?_, ?_, ?_, ?_⟩ <;> simp [apply_cli_overrides]

/-- C5 witness: the contract at concrete configurations — a missing
section, an empty email, a minimal valid file, and overrides on top of a
file that set the opposite values. -/
theorem C5_load_config_contract_witness :
    load_config (some {}) = Except.error ConfigError.missingHandshakeSection
    ∧ load_config (some { handshake := some { email := some "", password := some "pw" } })
        = Except.error ConfigError.missingCredentials
    ∧ load_config (some { handshake := some { email := some "a@b.c", password := some "pw" } })
        = Except.ok (defaulted_config "a@b.c" "pw")
    ∧ (apply_cli_overrides (defaulted_config "a@b.c" "pw")
        true (some 7) true).application.dry_run = true
    ∧ (apply_cli_overrides (defaulted_config "a@b.c" "pw")
        true (some 7) true).application.max_applications = 7 := by
  refine ⟨?_, ?_, ?_, ?_, ?_⟩
  · exact C5_load_config_contract.2.1 {} rfl
  · exact C5_load_config_contract.2.2.1
      { handshake := some { email := some "", password := some "pw" } }
      { email := some "", password := some "pw" } rfl (Or.inl rfl)
  · exact C5_load_config_contract.2.2.2.1 "a@b.c" "pw" (by decide) (by decide)
  · exact (C5_load_config_contract.2.2.2.2 (defaulted_config "a@b.c" "pw") 7).1
  · exact (C5_load_config_contract.2.2.2.2 (defaulted_config "a@b.c" "pw") 7).2.2.1

/-! ## Claim C9 -/

/-- The output character class the slug claim asserts: lowercase ASCII
letters, ASCII digits, and the hyphen. -/
def isLowerSlugChar (c : Char) : Bool :=
  (97 ≤ c.toNat && c.toNat ≤ 122) || (48 ≤ c.toNat && c.toNat ≤ 57) || c == '-'

theorem char_toNat_ofNat_valid {n : Nat} (h : n.isValidChar) : (Char.ofNat n).toNat = n := by
  rw [Char.ofNat, dif_pos h]
  simp [Char.ofNatAux, Char.toNat, UInt32.toNat]

theorem alnum_ne_hyphen {c : Char} (h : isAsciiAlnum c = true) : c ≠ '-' := by
  intro hc
  rw [hc] at h
  exact absurd h (by decide)

theorem toLower_alnum {c : Char} (h : isAsciiAlnum c = true) :
    isLowerSlugChar (Char.toLower c) = true := by
  unfold Char.toLower
  by_cases hu : c.toNat ≥ 65 ∧ c.toNat ≤ 90
  · rw [if_pos hu]
    have hv : (c.toNat + 32).isValidChar := Or.inl (by omega)
    have ht := char_toNat_ofNat_valid hv
    unfold isLowerSlugChar
    simp only [Bool.or_eq_true, Bool.and_eq_true, decide_eq_true_eq, ht]
    exact Or.inl (Or.inl ⟨by omega, by omega⟩)
  · rw [if_neg hu]
    unfold isAsciiAlnum at h
    unfold isLowerSlugChar
    simp only [Bool.or_eq_true, Bool.and_eq_true, decide_eq_true_eq] at h ⊢
    rcases h with (h1 | h2) | h3
    · exact absurd ⟨h1.1, h1.2⟩ hu
    · exact Or.inl (Or.inl h2)
    · exact Or.inl (Or.inr h3)

theorem toLower_eq_hyphen {c : Char} (h : Char.toLower c = '-') : c = '-' := by
  by_cases hu : c.toNat ≥ 65 ∧ c.toNat ≤ 90
  · exfalso
    unfold Char.toLower at h
    rw [if_pos hu] at h
    have hv : (c.toNat + 32).isValidChar := Or.inl (by omega)
    have ht := char_toNat_ofNat_valid hv
    have h45 : (Char.ofNat (c.toNat + 32)).toNat = ('-' : Char).toNat := by rw [h]
    rw [ht] at h45
    have : ('-' : Char).toNat = 45 := rfl
    omega
  · unfold Char.toLower at h
    rwa [if_neg hu] at h

theorem collapseRuns_mem : ∀ (b : Bool) (l : List Char), ∀ c ∈ collapseRuns b l,
    isAsciiAlnum c = true ∨ c = '-' := by
  intro b l
  induction l generalizing b with
  | nil => intro c hc; simp [collapseRuns] at hc
  | cons a t ih =>
    intro c hc
    unfold collapseRuns at hc
    split at hc
    · rcases List.mem_cons.1 hc with h | h
      · subst h
        exact Or.inl (by assumption)
      · exact ih false c h
    · split at hc
      · exact ih true c hc
      · rcases List.mem_cons.1 hc with h | h
        · exact Or.inr h
        · exact ih true c h

theorem collapseRuns_true_head : ∀ (l : List Char) (c : Char),
    (collapseRuns true l).head? = some c → c ≠ '-' := by
  intro l
  induction l with
  | nil => intro c h; simp [collapseRuns] at h
  | cons a t ih =>
    intro c h
    unfold collapseRuns at h
    split at h
    · rw [List.head?_cons] at h
      have hac : a = c := Option.some.inj h
      subst hac
      exact alnum_ne_hyphen (by assumption)
    · rw [if_pos rfl] at h
      exact ih c h

theorem collapseRuns_chain : ∀ (b : Bool) (l : List Char),
    List.Chain' (fun x y => ¬(x = '-' ∧ y = '-')) (collapseRuns b l) := by
  intro b l
  induction l generalizing b with
  | nil => simp [collapseRuns]
  | cons a t ih =>
    unfold collapseRuns
    split
    · rw [List.chain'_cons']
      refine ⟨?_, ih false⟩
      intro y _ hcon
      exact alnum_ne_hyphen (by assumption) hcon.1
    · split
      · exact ih true
      · rw [List.chain'_cons']
        refine ⟨?_, ih true⟩
        intro y hy hcon
        exact collapseRuns_true_head t y (by simpa using hy) hcon.2

theorem mem_of_mem_dropEndsWhile {p : Char → Bool} {l : List Char} {c : Char}
    (h : c ∈ dropEndsWhile p l) : c ∈ l := by
  unfold dropEndsWhile at h
  rw [List.mem_reverse] at h
  have h1 := List.dropWhile_subset p h
  rw [List.mem_reverse] at h1
  exact List.dropWhile_subset p h1

theorem chain'_dropEndsWhile {R : Char → Char → Prop}
    (hsymm : ∀ x y, R x y → R y x) {p : Char → Bool} {l : List Char}
    (h : List.Chain' R l) : List.Chain' R (dropEndsWhile p l) := by
  unfold dropEndsWhile
  have h1 : List.Chain' R (l.dropWhile p) := h.suffix (List.dropWhile_suffix p)
  have h2 : List.Chain' R (l.dropWhile p).reverse :=
    List.chain'_reverse.2 (h1.imp (fun a b hab => hsymm a b hab))
  have h3 : List.Chain' R ((l.dropWhile p).reverse.dropWhile p) :=
    h2.suffix (List.dropWhile_suffix p)
  exact List.chain'_reverse.2 (h3.imp (fun a b hab => hsymm a b hab))

/-- C9: for every input string (in particular the one built from company,
title and job id), the slug has only lowercase-alphanumeric-or-hyphen
characters, never two adjacent hyphens (each non-alphanumeric run collapsed
to one hyphen), is truncated to the 60-character limit, is never empty, and
is "job" when company, title and job id are all empty. -/
theorem C9_safe_slug_props :
    ∀ v : String,
      (∀ c ∈ (safe_slug v).data, isLowerSlugChar c = true)
      ∧ (safe_slug v).data.length ≤ 60
      ∧ safe_slug v ≠ ""
      ∧ List.Chain' (fun x y => ¬(x = '-' ∧ y = '-')) (safe_slug v).data
      ∧ safe_slug (slug_input { job_id := "", title := "", company := "" }) = "job" := by
  intro v
  unfold safe_slug
  by_cases hnil :
      ((dropEndsWhile (fun c => c == '-') (collapseRuns false v.data)).map Char.toLower).take 60
        = []
  · rw [if_pos (by simp [hnil])]
    refine ⟨by decide, by decide, by decide, ?_, by decide⟩
    show List.Chain' _ ['j', 'o', 'b']
    rw [List.chain'_cons', List.chain'_cons']
    refine ⟨?_, ?_, List.chain'_singleton _⟩ <;> simp
  · rw [if_neg (by simp [hnil])]
    refine ⟨?_, ?_, ?_, ?_, by decide⟩
    · intro c hc
      have hc1 := List.mem_of_mem_take hc
      obtain ⟨c0, hc0, rfl⟩ := List.mem_map.1 hc1
      have hc2 := mem_of_mem_dropEndsWhile hc0
      rcases collapseRuns_mem false v.data c0 hc2 with h | h
      · exact toLower_alnum h
      · rw [h]
        decide
    · exact List.length_take_le 60 _
    · intro h0
      apply hnil
      have := congrArg String.data h0
      simpa using this
    · have hchain := collapseRuns_chain false v.data
      have hchain2 := chain'_dropEndsWhile
        (fun x y hxy hcon => hxy ⟨hcon.2, hcon.1⟩) (p := fun c => c == '-') hchain
      have hchain3 : List.Chain' (fun x y => ¬(x = '-' ∧ y = '-'))
          ((dropEndsWhile (fun c => c == '-') (collapseRuns false v.data)).map Char.toLower) := by
        rw [List.chain'_map]
        refine hchain2.imp ?_
        intro a b hab hcon
        exact hab ⟨toLower_eq_hyphen hcon.1, toLower_eq_hyphen hcon.2⟩
      exact hchain3.prefix (List.take_prefix 60 _)

/-- C9 witness: the slug of "Acme, Inc."/"SWE Intern!!"/"42", its character
class at a sample position, and the all-empty fallback. -/
theorem C9_safe_slug_props_witness :
    safe_slug (slug_input
        { job_id := "42", title := "SWE Intern!!", company := "Acme, Inc." })
      = "acme-inc-swe-intern-42"
    ∧ isLowerSlugChar 'a' = true
    ∧ safe_slug (slug_input { job_id := "", title := "", company := "" }) = "job" := by
  refine ⟨by decide, ?_, ?_⟩
  · exact (C9_safe_slug_props (slug_input
      { job_id := "42", title := "SWE Intern!!", company := "Acme, Inc." })).1 'a' (by decide)
  · exact (C9_safe_slug_props "").2.2.2.2

/-! ## Claim C7 -/

theorem ite_chain_false (a b c d : Bool) :
    (if a then false else if b then false else if c then false else if d then false else true)
      = (!a && !b && !c && !d) := by
  cases a <;> cases b <;> cases c <;> cases d <;> rfl

theorem matches_filters_eq (fc : FilterConfig) (job : JobPosting) :
    matches_filters fc job
      = (!(!(normalized_keywords fc.include_keywords).isEmpty
            && !((normalized_keywords fc.include_keywords).any
                  (fun kw => substrB kw (jobText job))))
         && !(!(normalized_keywords fc.exclude_keywords).isEmpty
            && (normalized_keywords fc.exclude_keywords).any (fun kw => substrB kw (jobText job)))
         && !(fc.remote_only && !(substrB "remote" (jobText job)))
         && !(!(normalized_keywords fc.preferred_locations).isEmpty
            && !((normalized_keywords fc.preferred_locations).any
                  (fun l => substrB l (jobText job))))) := by
  unfold matches_filters
  exact ite_chain_false _ _ _ _

theorem matches_filters_iff (fc : FilterConfig) (job : JobPosting) :
    matches_filters fc job = true ↔
      ((normalized_keywords fc.include_keywords = []
          ∨ ∃ kw ∈ normalized_keywords fc.include_keywords, substrB kw (jobText job) = true)
       ∧ (∀ kw ∈ normalized_keywords fc.exclude_keywords, substrB kw (jobText job) = false)
       ∧ (fc.remote_only = true → substrB "remote" (jobText job) = true)
       ∧ (normalized_keywords fc.preferred_locations = []
          ∨ ∃ l ∈ normalized_keywords fc.preferred_locations, substrB l (jobText job) = true)) := by
  rw [matches_filters_eq]
  simp only [Bool.and_eq_true, Bool.not_eq_true', Bool.and_eq_false_iff, Bool.not_eq_false',
    Bool.not_eq_true, List.isEmpty_eq_true, List.isEmpty_eq_false, List.any_eq_true,
    List.any_eq_false]
  constructor
  · rintro ⟨⟨⟨h1, h2⟩, h3⟩, h4⟩
    refine ⟨h1, ?_, ?_, h4⟩
    · rcases h2 with h2 | h2
      · intro x hx
        rw [h2] at hx
        exact absurd hx (List.not_mem_nil x)
      · exact h2
    · intro hro
      rcases h3 with h3 | h3
      · rw [hro] at h3
        exact absurd h3 (by simp)
      · exact h3
  · rintro ⟨h1, h2, h3, h4⟩
    refine ⟨⟨⟨h1, Or.inr h2⟩, ?_⟩, h4⟩
    cases hro : fc.remote_only
    · exact Or.inl rfl
    · exact Or.inr (h3 hro)

/-- C7: a job whose text contains every (normalized) include keyword and no
exclude keyword passes filtering when remote_only is off and no preferred
locations are configured; a job whose text contains an exclude keyword
fails filtering and is recorded by the run loop as a skipped result with
reason "filter_mismatch"; and the four filters are AND'ed, an empty
normalized list imposing no constraint on its dimension. -/
theorem C7_filtering :
    (∀ (fc : FilterConfig) (job : JobPosting),
        (∀ kw ∈ normalized_keywords fc.include_keywords, substrB kw (jobText job) = true) →
        (∀ kw ∈ normalized_keywords fc.exclude_keywords, substrB kw (jobText job) = false) →
        fc.remote_only = false →
        normalized_keywords fc.preferred_locations = [] →
        matches_filters fc job = true)
    ∧ (∀ (config : AutomationConfig) (env : JobPosting → ApplyEnv) (job : JobPosting),
        (∃ kw ∈ normalized_keywords config.filters.exclude_keywords,
            substrB kw (jobText job) = true) →
        matches_filters config.filters job = false
        ∧ result_for config env job = mkResult job "skipped" "filter_mismatch")
    ∧ (∀ (fc : FilterConfig) (job : JobPosting),
        matches_filters fc job = true ↔
          ((normalized_keywords fc.include_keywords = []
              ∨ ∃ kw ∈ normalized_keywords fc.include_keywords,
                  substrB kw (jobText job) = true)
           ∧ (∀ kw ∈ normalized_keywords fc.exclude_keywords, substrB kw (jobText job) = false)
           ∧ (fc.remote_only = true → substrB "remote" (jobText job) = true)
           ∧ (normalized_keywords fc.preferred_locations = []
              ∨ ∃ l ∈ normalized_keywords fc.preferred_locations,
                  substrB l (jobText job) = true))) := by
  refine ⟨?_, ?_, matches_filters_iff⟩
  · intro fc job hinc hexc hro hpref
    refine (matches_filters_iff fc job).2 ⟨?_, hexc, ?_, Or.inl hpref⟩
    · cases hl : normalized_keywords fc.include_keywords with
      | nil => exact Or.inl rfl
      | cons a t =>
        refine Or.inr ⟨a, ?_, ?_⟩
        · exact List.mem_cons_self a t
        · exact hinc a (by rw [hl]; exact List.mem_cons_self a t)
    · intro h
      rw [h] at hro
      exact absurd hro (by simp)
  · intro config env job hex
    obtain ⟨kw, hkw, hsub⟩ := hex
    have hfalse : matches_filters config.filters job = false := by
      rw [Bool.eq_false_iff]
      intro ht
      have h2 := ((matches_filters_iff config.filters job).1 ht).2.1 kw hkw
      rw [hsub] at h2
      exact absurd h2 (by simp)
    refine ⟨hfalse, ?_⟩
    unfold result_for
    rw [hfalse]
    rfl

/-- C7 witness: a software-intern job passes the default filters; the same
job is skipped with reason "filter_mismatch" once "barista" is an exclude
keyword occurring in its description. -/
theorem C7_filtering_witness :
    matches_filters {}
      { job_id := "1", title := "Software Engineer Intern", company := "Acme",
        location := "NYC", description := "Work on backend services" } = true
    ∧ result_for
        { handshake := { email := "e", password := "p" },
          filters := { exclude_keywords := ["barista"] } }
        (fun _ => { steps := fun _ => {} })
        { job_id := "1", title := "Software Engineer Intern", company := "Acme",
          location := "NYC", description := "Also a barista role" }
      = mkResult
          { job_id := "1", title := "Software Engineer Intern", company := "Acme",
            location := "NYC", description := "Also a barista role" }
          "skipped" "filter_mismatch" := by
  constructor
  · exact C7_filtering.1 {}
      { job_id := "1", title := "Software Engineer Intern", company := "Acme",
        location := "NYC", description := "Work on backend services" }
      (by decide) (by decide) rfl (by decide)
  · exact (C7_filtering.2.1
      { handshake := { email := "e", password := "p" },
        filters := { exclude_keywords := ["barista"] } }
      (fun _ => { steps := fun _ => {} })
      { job_id := "1", title := "Software Engineer Intern", company := "Acme",
        location := "NYC", description := "Also a barista role" }
      ⟨"barista", by decide, by decide⟩).2

/-! ## Claim C1 -/

theorem apply_loop_dry_run (app : ApplicationConfig) (job : JobPosting) (env : ApplyEnv)
    (hdry : app.dry_run = true ∨ app.auto_submit = false) :
    ∀ (remaining i : Nat),
      BotAction.clickSubmit ∉ (apply_loop app job env i remaining).2
      ∧ (reaches_submit env i remaining = true →
          (apply_loop app job env i remaining).1
            = mkResult job "dry_run_ready" "submit_button_reached") := by
  have hcond : (app.dry_run || !app.auto_submit) = true := by
    rcases hdry with h | h <;> simp [h]
  intro remaining
  induction remaining with
  | zero =>
    intro i
    refine ⟨by simp [apply_loop], ?_⟩
    intro h
    simp [reaches_submit] at h
  | succ r ih =>
    intro i
    unfold apply_loop reaches_submit
    by_cases h1 : (env.steps i).fillRaises = true
    · simp [h1]
    · by_cases h2 : (env.steps i).hasSubmit = true
      · simp [h1, h2, hcond]
      · by_cases h3 : (env.steps i).hasNext = true
        · simp only [h1, h2, h3, Bool.false_eq_true, if_false, Bool.not_true,
            Bool.false_eq_true, if_false, if_true]
          refine ⟨?_, ?_⟩
          · intro hmem
            rcases List.mem_cons.1 hmem with h | h
            · exact absurd h (by decide)
            · exact (ih (i + 1)).1 h
          · intro hr
            exact (ih (i + 1)).2 hr
        · simp [h1, h2, h3]

/-- C1: whenever `application.dry_run` is true or `auto_submit` is false,
`_apply_to_job` never clicks the submit control; and if the apply loop
detects a submit-labeled control, the job's result has status
"dry_run_ready" with reason "submit_button_reached". -/
theorem C1_dry_run_never_submits :
    ∀ (app : ApplicationConfig) (job : JobPosting) (env : ApplyEnv),
      (app.dry_run = true ∨ app.auto_submit = false) →
      BotAction.clickSubmit ∉ (apply_to_job app job env).2
      ∧ (env.gotoRaises = false → env.applyClicked = true → env.buildRaises = false →
          reaches_submit env 0 14 = true →
          (apply_to_job app job env).1.status = "dry_run_ready"
          ∧ (apply_to_job app job env).1.reason = "submit_button_reached") := by
  intro app job env hdry
  have hloop := apply_loop_dry_run app job env hdry 14 0
  unfold apply_to_job
  by_cases hg : env.gotoRaises = true
  · refine ⟨by simp [hg], ?_⟩
    intro hg0
    rw [hg] at hg0
    exact absurd hg0 (by decide)
  · by_cases ha : env.applyClicked = true
    · by_cases hb : env.buildRaises = true
      · refine ⟨by simp [hg, ha, hb], ?_⟩
        intro _ _ hb0
        rw [hb] at hb0
        exact absurd hb0 (by decide)
      · simp only [hg, ha, hb, Bool.false_eq_true, if_false, Bool.not_true, Bool.not_false,
          if_true]
        refine ⟨?_, ?_⟩
        · intro hmem
          rcases List.mem_cons.1 hmem with h | h
          · exact absurd h (by decide)
          · exact hloop.1 h
        · intro _ _ _ hr
          rw [hloop.2 hr]
          exact ⟨rfl, rfl⟩
    · refine ⟨by simp [hg, ha], ?_⟩
      intro _ ha0
      exact absurd ha0 ha

/-- C1 witness: with the default application policy (dry_run on,
auto_submit off) and a page whose first pass shows a submit button, the
result is dry_run_ready/submit_button_reached and no submit click occurs. -/
theorem C1_dry_run_never_submits_witness :
    BotAction.clickSubmit ∉ (apply_to_job {} { job_id := "1", title := "T" }
        { steps := fun _ => { hasSubmit := true } }).2
    ∧ (apply_to_job {} { job_id := "1", title := "T" }
        { steps := fun _ => { hasSubmit := true } }).1.status = "dry_run_ready"
    ∧ (apply_to_job {} { job_id := "1", title := "T" }
        { steps := fun _ => { hasSubmit := true } }).1.reason = "submit_button_reached" := by
  have h := C1_dry_run_never_submits {} { job_id := "1", title := "T" }
    { steps := fun _ => { hasSubmit := true } } (Or.inl rfl)
  exact ⟨h.1, (h.2 rfl rfl rfl (by decide)).1, (h.2 rfl rfl rfl (by decide)).2⟩

/-! ## Claim C8 -/

theorem apply_loop_status (app : ApplicationConfig) (job : JobPosting) (env : ApplyEnv) :
    ∀ (remaining i : Nat),
      (apply_loop app job env i remaining).1.status = "applied"
      ∨ (apply_loop app job env i remaining).1.status = "dry_run_ready"
      ∨ (apply_loop app job env i remaining).1.status = "failed" := by
  intro remaining
  induction remaining with
  | zero => intro i; simp [apply_loop, mkResult]
  | succ r ih =>
    intro i
    unfold apply_loop
    by_cases h1 : (env.steps i).fillRaises = true
    · simp [h1, mkResult]
    · by_cases h2 : (env.steps i).hasSubmit = true
      · by_cases hd : (app.dry_run || !app.auto_submit) = true
        · simp [h1, h2, hd, mkResult]
        · by_cases h4 : (env.steps i).submitClickFails = true
          · simp [h1, h2, hd, h4, mkResult]
          · simp [h1, h2, hd, h4, mkResult]
      · by_cases h3 : (env.steps i).hasNext = true
        · simp only [h1, h2, h3, Bool.false_eq_true, if_false, Bool.not_true, if_true]
          exact ih (i + 1)
        · simp [h1, h2, h3, mkResult]

theorem result_for_status (config : AutomationConfig) (env : JobPosting → ApplyEnv)
    (job : JobPosting) :
    (result_for config env job).status = "applied"
    ∨ (result_for config env job).status = "dry_run_ready"
    ∨ (result_for config env job).status = "skipped"
    ∨ (result_for config env job).status = "failed" := by
  unfold result_for
  by_cases hm : matches_filters config.filters job = true
  · rw [if_neg (by simp [hm])]
    unfold apply_to_job
    by_cases hg : (env job).gotoRaises = true
    · simp [hg, mkResult]
    · by_cases ha : (env job).applyClicked = true
      · by_cases hb : (env job).buildRaises = true
        · simp [hg, ha, hb, mkResult]
        · simp only [hg, ha, hb, Bool.false_eq_true, if_false, Bool.not_true, Bool.not_false,
            if_true]
          rcases apply_loop_status config.application job (env job) 14 0 with h | h | h
          · exact Or.inl h
          · exact Or.inr (Or.inl h)
          · exact Or.inr (Or.inr (Or.inr h))
      · simp [hg, ha, mkResult]
  · rw [if_pos (by simp [Bool.eq_false_iff.2 hm])]
    simp [mkResult]

theorem run_loop_take (config : AutomationConfig) (env : JobPosting → ApplyEnv) :
    ∀ (jobs : List JobPosting) (count : Nat),
      ∃ n, run_loop config env jobs count = (jobs.take n).map (result_for config env) := by
  intro jobs
  induction jobs with
  | nil => intro count; exact ⟨0, rfl⟩
  | cons j rest ih =>
    intro count
    unfold run_loop
    by_cases h : config.application.max_applications ≤ (count : Int)
    · rw [if_pos h]
      exact ⟨0, rfl⟩
    · rw [if_neg h]
      obtain ⟨n, hn⟩ := ih (count +
        (if (result_for config env j).status == "applied"
            || (result_for config env j).status == "ready_to_submit"
            || (result_for config env j).status == "dry_run_ready" then 1 else 0))
      refine ⟨n + 1, ?_⟩
      simp only [List.take_succ_cons, List.map_cons]
      rw [← hn]

/-- C8: the run loop emits exactly one ApplicationResult per job it
reaches, in order — the processed jobs form a prefix of the discovered
list, each contributing its filter-skip or apply-flow result — every
emitted status is one of applied, ready_to_submit, dry_run_ready, skipped,
failed, and a job failing the filters is recorded as skipped with reason
"filter_mismatch". -/
theorem C8_one_result_per_processed_job :
    ∀ (config : AutomationConfig) (env : JobPosting → ApplyEnv) (jobs : List JobPosting),
      (∃ n, run_loop config env jobs 0 = (jobs.take n).map (result_for config env))
      ∧ (∀ r ∈ run_loop config env jobs 0,
          r.status = "applied" ∨ r.status = "ready_to_submit" ∨ r.status = "dry_run_ready"
          ∨ r.status = "skipped" ∨ r.status = "failed")
      ∧ (∀ job : JobPosting, matches_filters config.filters job = false →
          result_for config env job = mkResult job "skipped" "filter_mismatch") := by
  intro config env jobs
  refine ⟨run_loop_take config env jobs 0, ?_, ?_⟩
  · intro r hr
    obtain ⟨n, hn⟩ := run_loop_take config env jobs 0
    rw [hn] at hr
    obtain ⟨j, _, rfl⟩ := List.mem_map.1 hr
    rcases result_for_status config env j with h | h | h | h
    · exact Or.inl h
    · exact Or.inr (Or.inr (Or.inl h))
    · exact Or.inr (Or.inr (Or.inr (Or.inl h)))
    · exact Or.inr (Or.inr (Or.inr (Or.inr h)))
  · intro job hm
    unfold result_for
    rw [hm]
    rfl

/-- C8 witness: a two-job run — one passing job reaching submit in dry-run
mode, one filtered-out job — emits exactly the two expected results. -/
theorem C8_one_result_per_processed_job_witness :
    (∃ n, run_loop { handshake := { email := "e", password := "p" } }
        (fun _ => { steps := fun _ => { hasSubmit := true } })
        [{ job_id := "1", title := "software intern" }, { job_id := "2", title := "barista" }] 0
      = (([{ job_id := "1", title := "software intern" },
           { job_id := "2", title := "barista" }] : List JobPosting).take n).map
          (result_for { handshake := { email := "e", password := "p" } }
            (fun _ => { steps := fun _ => { hasSubmit := true } })))
    ∧ result_for { handshake := { email := "e", password := "p" } }
        (fun _ => { steps := fun _ => { hasSubmit := true } })
        { job_id := "2", title := "barista" }
      = mkResult { job_id := "2", title := "barista" } "skipped" "filter_mismatch" := by
  constructor
  · exact (C8_one_result_per_processed_job { handshake := { email := "e", password := "p" } }
      (fun _ => { steps := fun _ => { hasSubmit := true } })
      [{ job_id := "1", title := "software intern" }, { job_id := "2", title := "barista" }]).1
  · exact (C8_one_result_per_processed_job { handshake := { email := "e", password := "p" } }
      (fun _ => { steps := fun _ => { hasSubmit := true } }) []).2.2
      { job_id := "2", title := "barista" } (by decide)
